import Mathlib

/-!
Verification of the multi-agent highway environment
(`flow/envs/multiagent/highway.py`): the observation encoder, the family of
reward strategies, the action dispatcher and the constructor parameter check.

The simulator kernel (`self.k.vehicle`, `self.k.network`) and the metrics
imported from `flow.core.rewards` (`desired_velocity`, `average_velocity`)
are external services; they are modelled as opaque fields of an `EnvState`
record, one field per telemetry query the source performs.  Python floats
are modelled as rationals, Python dicts built by inserting one key per RL id
as association lists keyed in the same order.
-/

/-- The per-step telemetry visible to the environment.  Each field embeds one
query on `self.k.vehicle` / `self.k.network`, or one external metric.
Python's `get_leader` / `get_follower` may return `None` (here `none`) or an
id string (here `some`), the empty string included. -/
structure EnvState where
  /-- Embeds `self.k.vehicle.get_rl_ids()` -/
  rl_ids : List String
  /-- Embeds `self.k.vehicle.get_speed(veh_id)` -/
  get_speed : String → ℚ
  /-- Embeds `self.k.vehicle.get_leader(veh_id)` -/
  get_leader : String → Option String
  /-- Embeds `self.k.vehicle.get_follower(veh_id)` -/
  get_follower : String → Option String
  /-- Embeds `self.k.vehicle.get_headway(veh_id)` -/
  get_headway : String → ℚ
  /-- Embeds `self.k.network.max_speed()` -/
  max_speed : ℚ
  /-- Embeds `self.k.network.length()` -/
  length : ℚ
  /-- Embeds `self.env_params.evaluate` -/
  evaluate : Bool
  /-- external metric `flow.core.rewards.desired_velocity(self, fail=...)` -/
  desired_velocity : Bool → ℚ
  /-- external metric `flow.core.rewards.average_velocity(self)` -/
  average_velocity : ℚ
  /-- Embeds `self.k.vehicle.get_edge(veh_id)` -/
  get_edge : String → String
  /-- Embeds `self.k.vehicle.get_lane(veh_id)` -/
  get_lane : String → Int
  /-- Embeds `self.k.vehicle.get_position(id)`: a vehicle-position query; the kernel
  answers with an error value for an id that is not a live vehicle. -/
  get_position : String → ℚ
  /-- Embeds `self.k.vehicle.get_ids_by_edge(edge)` -/
  get_ids_by_edge : String → List String
  /-- Embeds `self.k.network.get_junction_list()` -/
  get_junction_list : List String
  /-- Embeds `self.k.network.prev_edge(edge, lane)` -/
  prev_edge : String → Int → List (String × Int)
  /-- Embeds `self.k.network.speed_limit(edge)` -/
  speed_limit : String → ℚ
  /-- Embeds `self.k.vehicle.get_x_by_id(veh_id)` -/
  get_x_by_id : String → ℚ
  /-- Embeds `self.k.network.edge_length(edge)` -/
  edge_length : String → ℚ
  /-- Embeds `self.k.network.total_edgestarts_dict[edge]` -/
  total_edgestarts_dict : String → ℚ

/-- A per-agent action vector: `actions[0]` (the acceleration) followed by the
remaining entries.  The action space has shape `(1,)`, so the vector is
non-empty by construction. -/
def ActionVec : Type := ℚ × List ℚ

/-- The `rl_actions` argument: `None` during warm-up, otherwise a dict from
agent id to action vector. -/
def RLActions : Type := Option (List (String × ActionVec))

/-- Python truthiness of `rl_actions` in `if rl_actions:` — `None` and the
empty dict are both falsy. -/
def truthy (a : RLActions) : Bool :=
  match a with
  | none => false
  | some acts => !acts.isEmpty

/-- Module-level `ADDITIONAL_ENV_PARAMS` keys. -/
def ADDITIONAL_ENV_PARAMS_keys : List String :=
  ["max_accel", "max_decel", "target_velocity"]

/-- The loop in `MultiAgentHighwayPOEnv.__init__`: for each required key, raise
`KeyError` when it is absent from `env_params.additional_params`. -/
def check_params (keys : List String) (additional_params : List String) :
    Except String Unit :=
  match keys with
  | [] => Except.ok ()
  | p :: rest =>
    if p ∈ additional_params then check_params rest additional_params
    else Except.error ("Environment parameter " ++ p ++ " not supplied")

/-- Embeds `MultiAgentHighwayPOEnv.__init__`'s own check over the supplied
additional parameters. -/
def init_check (additional_params : List String) : Except String Unit :=
  check_params ADDITIONAL_ENV_PARAMS_keys additional_params

/-- The `(lead_speed, lead_head)` assignment shared by both `get_state`
bodies: the substituted `(max_speed, max_length)` when the leader id is
`None` or empty, the leader's speed and the agent's headway otherwise. -/
def lead_pair (s : EnvState) (rl_id : String) : ℚ × ℚ :=
  let lead_id := s.get_leader rl_id
  if lead_id = none ∨ lead_id = some "" then
    -- in case leader is not visible
    (s.max_speed, s.length)
  else
    match lead_id with
    | some l => (s.get_speed l, s.get_headway rl_id)
    | none => (s.max_speed, s.length)

/-- The `(follow_speed, follow_head)` assignment shared by both `get_state`
bodies: the substituted `(0, max_length)` when the follower id is `None` or
empty, the follower's speed and headway otherwise. -/
def follow_pair (s : EnvState) (rl_id : String) : ℚ × ℚ :=
  let follower := s.get_follower rl_id
  if follower = none ∨ follower = some "" then
    -- in case follower is not visible
    (0, s.length)
  else
    match follower with
    | some f => (s.get_speed f, s.get_headway f)
    | none => (0, s.length)

namespace MultiAgentHighwayPOEnv

/-- Loop body of `MultiAgentHighwayPOEnv.get_state` for one `rl_id`: the
5-feature observation vector. -/
def observe (s : EnvState) (rl_id : String) : List ℚ :=
  [s.get_speed rl_id / s.max_speed,
   ((lead_pair s rl_id).1 - s.get_speed rl_id) / s.max_speed,
   (lead_pair s rl_id).2 / s.length,
   (s.get_speed rl_id - (follow_pair s rl_id).1) / s.max_speed,
   (follow_pair s rl_id).2 / s.length]

/-- Embeds `MultiAgentHighwayPOEnv.get_state`: one observation per RL id. -/
def get_state (s : EnvState) : List (String × List ℚ) :=
  s.rl_ids.map (fun rl_id => (rl_id, observe s rl_id))

/-- Loop body of `MultiAgentHighwayPOEnv.compute_reward` for one `rl_id`. -/
def reward_agent (s : EnvState) (fail : Bool) (rl_id : String) : ℚ :=
  if s.evaluate then
    -- reward is speed of vehicle if we are in evaluation mode
    s.get_speed rl_id
  else if fail then
    -- reward is 0 if a collision occurred
    0
  else
    let cost1 := s.desired_velocity fail
    let t_min : ℚ := 1
    let lead_id := s.get_leader rl_id
    let cost2 : ℚ :=
      if ¬(lead_id = none ∨ lead_id = some "") ∧ 0 < s.get_speed rl_id then
        let t_headway := max (s.get_headway rl_id / s.get_speed rl_id) 0
        min ((t_headway - t_min) / t_min) 0
      else 0
    let eta1 : ℚ := 1
    let eta2 : ℚ := 0
    max (eta1 * cost1 + eta2 * cost2) 0

/-- Embeds `MultiAgentHighwayPOEnv.compute_reward`. -/
def compute_reward (s : EnvState) (rl_actions : RLActions) (fail : Bool) :
    List (String × ℚ) :=
  match rl_actions with
  | none => []
  | some _ => s.rl_ids.map (fun rl_id => (rl_id, reward_agent s fail rl_id))

/-- Embeds `MultiAgentHighwayPOEnv._apply_rl_actions`: the list of
`apply_acceleration(rl_id, accel)` commands issued. -/
def apply_rl_actions (rl_actions : RLActions) : List (String × ℚ) :=
  if truthy rl_actions then
    (rl_actions.getD []).map (fun p => (p.1, p.2.1))
  else []

end MultiAgentHighwayPOEnv

namespace MultiAgentHighwayPOEnvLocalReward

/-- Embeds `MultiAgentHighwayPOEnvLocalReward._veh_edge_lane`: vehicles on `edge`
whose lane equals `lane`. -/
def veh_edge_lane (s : EnvState) (edge : String) (lane : Int) : List String :=
  (s.get_ids_by_edge edge).filter (fun veh => s.get_lane veh = lane)

/-- Embeds `MultiAgentHighwayPOEnvLocalReward._veh_edge_lane_backward_pass`.  The
Python recursion is unbounded over the `prev_edge` topology (no visited-edge
guard); `fuel` bounds the recursion depth here, returning `[]` once exhausted,
and on any topology whose backward reach is shallower than `fuel` the two
agree. -/
def veh_edge_lane_backward_pass (s : EnvState) (fuel : Nat) (edge : String)
    (lane : Int) (junctions : List String) : List String :=
  match fuel with
  | 0 => []
  | fuel + 1 =>
    (s.prev_edge edge lane).foldl
      (fun veh pe =>
        let veh :=
          if pe.1 ∈ junctions then
            veh ++ veh_edge_lane_backward_pass s fuel pe.1 pe.2 junctions
          else veh
        veh ++ veh_edge_lane s pe.1 pe.2)
      []

/-- Embeds `MultiAgentHighwayPOEnvLocalReward._compute_avgspeed_agent`.  Note the
source computes `pos = self.k.vehicle.get_position(edge)` — the vehicle
position query applied to the edge name, not to `rl_id`. -/
def compute_avgspeed_agent (s : EnvState) (fuel : Nat) (rl_id : String)
    (fail : Bool) : ℚ :=
  if fail then 0
  else
    let edge := s.get_edge rl_id
    let lane := s.get_lane rl_id
    let pos := s.get_position edge
    let edge_veh := s.get_ids_by_edge edge
    let junctions := s.get_junction_list
    let neighbours :=
      edge_veh.filter (fun veh => s.get_lane veh = lane ∧ s.get_position veh ≤ pos)
    let neighbours := neighbours ++ veh_edge_lane_backward_pass s fuel edge lane junctions
    if neighbours.length = 0 then 0
    else
      let vel := neighbours.map s.get_speed
      if vel.any (fun v => v < -100) then 0
      else vel.sum / (vel.length : ℚ)

/-- Embeds `MultiAgentHighwayPOEnvLocalReward._compute_avgspeednormalized_agent`. -/
def compute_avgspeednormalized_agent (s : EnvState) (fuel : Nat)
    (rl_id : String) (fail : Bool) : ℚ :=
  compute_avgspeed_agent s fuel rl_id fail / s.speed_limit (s.get_edge rl_id)

/-- Embeds `MultiAgentHighwayPOEnvLocalReward.compute_reward`. -/
def compute_reward (s : EnvState) (fuel : Nat) (rl_actions : RLActions)
    (fail : Bool) : List (String × ℚ) :=
  match rl_actions with
  | none => []
  | some _ =>
    s.rl_ids.map
      (fun rl_id => (rl_id, compute_avgspeednormalized_agent s fuel rl_id fail))

end MultiAgentHighwayPOEnvLocalReward

/-- Models `np.clip(x, lo, hi)`. -/
def np_clip (x lo hi : ℚ) : ℚ := min (max x lo) hi

/-- Python `max` over a non-empty list (used on `merge_dists`). -/
def list_max (l : List ℚ) : ℚ := l.foldl max (l.headD 0)

namespace MultiAgentHighwayPOEnvDistanceMergeInfo

/-- The `distance` feature: well-defined only on the three named upstream
edges, the placeholder `1` elsewhere. -/
def distance_feature (s : EnvState) (rl_id : String) : ℚ :=
  let veh_x := s.get_x_by_id rl_id
  let edge := s.get_edge rl_id
  let center_x := s.total_edgestarts_dict "center"
  if edge = "inflow_highway" ∨ edge = "left" ∨ edge = "center" then
    (veh_x - center_x) / center_x
  else 1

/-- Loop body of `MultiAgentHighwayPOEnvDistanceMergeInfo.get_state` for one
`rl_id`, given the loop-invariant `merge_distance`. -/
def observe (s : EnvState) (merge_distance : ℚ) (rl_id : String) : List ℚ :=
  [s.get_speed rl_id / s.max_speed,
   ((lead_pair s rl_id).1 - s.get_speed rl_id) / s.max_speed,
   (lead_pair s rl_id).2 / s.length,
   (s.get_speed rl_id - (follow_pair s rl_id).1) / s.max_speed,
   (follow_pair s rl_id).2 / s.length,
   np_clip (distance_feature s rl_id) (-1) 1,
   np_clip merge_distance (-1) 1]

/-- The `merge_distance` computed once per `get_state` call: `1` when no
vehicle is on edge `"bottom"`, else `(len_bottom - max position)/len_bottom`. -/
def merge_distance (s : EnvState) : ℚ :=
  let merge_vehs := s.get_ids_by_edge "bottom"
  let merge_dists := merge_vehs.map s.get_position
  let len_bottom := s.edge_length "bottom"
  if 0 < merge_dists.length then
    (len_bottom - list_max merge_dists) / len_bottom
  else 1

/-- Embeds `MultiAgentHighwayPOEnvDistanceMergeInfo.get_state`: one 7-feature
observation per RL id. -/
def get_state (s : EnvState) : List (String × List ℚ) :=
  s.rl_ids.map (fun rl_id => (rl_id, observe s (merge_distance s) rl_id))

end MultiAgentHighwayPOEnvDistanceMergeInfo

namespace MultiAgentHighwayPOEnvDistanceMergeInfoNegative

/-- Embeds `MultiAgentHighwayPOEnvDistanceMergeInfoNegative.compute_reward`. -/
def compute_reward (s : EnvState) (rl_actions : RLActions) (_fail : Bool) :
    List (String × ℚ) :=
  match rl_actions with
  | none => []
  | some _ => s.rl_ids.map (fun rl_id => (rl_id, (-0.1 : ℚ)))

end MultiAgentHighwayPOEnvDistanceMergeInfoNegative

namespace MultiAgentHighwayPOEnvDistanceMergeInfoCollaborate

/-- Embeds `MultiAgentHighwayPOEnvDistanceMergeInfoCollaborate.compute_reward`. -/
def compute_reward (s : EnvState) (rl_actions : RLActions) (_fail : Bool) :
    List (String × ℚ) :=
  match rl_actions with
  | none => []
  | some _ =>
    let eta1 : ℚ := 0.5
    let eta2 : ℚ := 0.5
    let reward1 : ℚ := -1
    let reward2 : ℚ := s.average_velocity / 30
    let reward : ℚ := reward1 * eta1 + reward2 * eta2
    s.rl_ids.map (fun rl_id => (rl_id, reward))

end MultiAgentHighwayPOEnvDistanceMergeInfoCollaborate

namespace MultiAgentHighwayPOEnvNegative

/-- Embeds `MultiAgentHighwayPOEnvNegative.compute_reward`. -/
def compute_reward (s : EnvState) (rl_actions : RLActions) (_fail : Bool) :
    List (String × ℚ) :=
  match rl_actions with
  | none => []
  | some _ => s.rl_ids.map (fun rl_id => (rl_id, (-0.1 : ℚ)))

end MultiAgentHighwayPOEnvNegative

namespace MultiAgentHighwayPOEnvCollaborate

/-- Embeds `MultiAgentHighwayPOEnvCollaborate.compute_reward`. -/
def compute_reward (s : EnvState) (rl_actions : RLActions) (_fail : Bool) :
    List (String × ℚ) :=
  match rl_actions with
  | none => []
  | some _ =>
    let eta1 : ℚ := 0.5
    let eta2 : ℚ := 0.5
    let reward1 : ℚ := -1
    let reward2 : ℚ := s.average_velocity / 30
    let reward : ℚ := reward1 * eta1 + reward2 * eta2
    s.rl_ids.map (fun rl_id => (rl_id, reward))

end MultiAgentHighwayPOEnvCollaborate

/-! ### Concrete telemetry fixtures -/

/-- A neutral telemetry state; the fixtures below override the fields they
exercise. -/
def s0 : EnvState where
  rl_ids := []
  get_speed := fun _ => 0
  get_leader := fun _ => none
  get_follower := fun _ => none
  get_headway := fun _ => 0
  max_speed := 30
  length := 100
  evaluate := false
  desired_velocity := fun _ => 0
  average_velocity := 0
  get_edge := fun _ => "highway"
  get_lane := fun _ => 0
  get_position := fun _ => 0
  get_ids_by_edge := fun _ => []
  get_junction_list := []
  prev_edge := fun _ _ => []
  speed_limit := fun _ => 30
  get_x_by_id := fun _ => 0
  edge_length := fun _ => 100
  total_edgestarts_dict := fun _ => 0

/-- The scenario of the spec's end-to-end test: agent `A` at speed 10,
leader `B` at headway 5 with speed 15, no follower, `max_speed = 30`,
`length = 100`. -/
def sC1 : EnvState :=
  { s0 with
    rl_ids := ["A"]
    get_speed := fun v => if v = "A" then 10 else if v = "B" then 15 else 0
    get_leader := fun v => if v = "A" then some "B" else none
    get_headway := fun v => if v = "A" then 5 else 0 }

/-- Fixture `sC1` with a follower `C` at speed 4 and headway 7 added behind `A`. -/
def sC1w : EnvState :=
  { sC1 with
    get_speed := fun v =>
      if v = "A" then 10 else if v = "B" then 15 else if v = "C" then 4 else 0
    get_follower := fun v => if v = "A" then some "C" else none
    get_headway := fun v => if v = "A" then 5 else if v = "C" then 7 else 0 }

/-- Agent `A` at speed 0 with no leader and no follower. -/
def sC2 : EnvState :=
  { s0 with rl_ids := ["A"] }

/-! ### C1 -/

/-- C1: for every agent with a visible leader and follower, the base
`get_state` observation is
`[v/max_speed, (lead_speed - v)/max_speed, lead_headway/max_length,
(v - follow_speed)/max_speed, follow_headway/max_length]`; and in the
spec's end-to-end scenario (speed 10, leader at headway 5 speed 15, no
follower, `max_speed` 30, `length` 100) the observation is exactly
`[1/3, 1/6, 1/20, 1/3, 1]` (hence within `1e-3` of the quoted values). -/
theorem C1_base_observation_formula :
    (∀ (s : EnvState) (rl_id l f : String),
      rl_id ∈ s.rl_ids →
      s.get_leader rl_id = some l → l ≠ "" →
      s.get_follower rl_id = some f → f ≠ "" →
      (rl_id,
        [s.get_speed rl_id / s.max_speed,
         (s.get_speed l - s.get_speed rl_id) / s.max_speed,
         s.get_headway rl_id / s.length,
         (s.get_speed rl_id - s.get_speed f) / s.max_speed,
         s.get_headway f / s.length]) ∈ MultiAgentHighwayPOEnv.get_state s)
    ∧ MultiAgentHighwayPOEnv.get_state sC1 =
        [("A", [1/3, 1/6, 1/20, 1/3, 1])] := by
  constructor
  · intro s rl_id l f hmem hl hlne hf hfne
    have hobs : MultiAgentHighwayPOEnv.observe s rl_id =
        [s.get_speed rl_id / s.max_speed,
         (s.get_speed l - s.get_speed rl_id) / s.max_speed,
         s.get_headway rl_id / s.length,
         (s.get_speed rl_id - s.get_speed f) / s.max_speed,
         s.get_headway f / s.length] := by
      simp [MultiAgentHighwayPOEnv.observe, lead_pair, follow_pair, hl, hf, hlne, hfne]
    exact List.mem_map.mpr ⟨rl_id, hmem, by rw [hobs]⟩
  · simp only [MultiAgentHighwayPOEnv.get_state, MultiAgentHighwayPOEnv.observe,
      lead_pair, follow_pair, sC1, s0]
    norm_num
    simp
    norm_num

/-- Witness for C1 at the fixture with both neighbors visible. -/
theorem C1_base_observation_formula_witness :
    ("A",
      [sC1w.get_speed "A" / sC1w.max_speed,
       (sC1w.get_speed "B" - sC1w.get_speed "A") / sC1w.max_speed,
       sC1w.get_headway "A" / sC1w.length,
       (sC1w.get_speed "A" - sC1w.get_speed "C") / sC1w.max_speed,
       sC1w.get_headway "C" / sC1w.length]) ∈
      MultiAgentHighwayPOEnv.get_state sC1w :=
  C1_base_observation_formula.1 sC1w "A" "B" "C" (by decide) (by decide)
    (by decide) (by decide) (by decide)

/-! ### C2 -/

/-- C2 counterexample: agent `A` at speed 0 with no leader (`sC2`,
`max_speed = 30`).  The second component of the observation is
`(30 - 0)/30 = 1`, not `0` as the claim states. -/
theorem C2_no_leader_counterexample :
    MultiAgentHighwayPOEnv.get_state sC2 = [("A", [0, 1, 1, 0, 1])]
    ∧ ¬((1 : ℚ) = 0) := by
  constructor
  · simp only [MultiAgentHighwayPOEnv.get_state, MultiAgentHighwayPOEnv.observe,
      lead_pair, follow_pair, sC2, s0]
    norm_num
  · norm_num

/-- C2 (amended): for every agent whose leader id resolves to empty string or
`None`, the lead-headway feature (third component) equals 1 and the
lead-speed feature (second component) equals `(max_speed - v)/max_speed` —
zero only when the agent itself travels at `max_speed` — independent of any
other vehicle's state. -/
theorem C2_no_leader_amended (s : EnvState) (rl_id : String)
    (hmem : rl_id ∈ s.rl_ids)
    (hl : s.get_leader rl_id = none ∨ s.get_leader rl_id = some "")
    (hml : s.length ≠ 0) :
    (rl_id, MultiAgentHighwayPOEnv.observe s rl_id) ∈
      MultiAgentHighwayPOEnv.get_state s
    ∧ (MultiAgentHighwayPOEnv.observe s rl_id).get? 1 =
        some ((s.max_speed - s.get_speed rl_id) / s.max_speed)
    ∧ (MultiAgentHighwayPOEnv.observe s rl_id).get? 2 = some 1 := by
  refine ⟨List.mem_map.mpr ⟨rl_id, hmem, rfl⟩, ?_, ?_⟩ <;>
    rcases hl with h | h <;>
      simp [MultiAgentHighwayPOEnv.observe, lead_pair, h, div_self hml]

/-- Agent `A` at position 50 on edge `"highway"` (lane 0, speed 10) with a
same-lane vehicle `B` behind it at position 30 (speed 20); no upstream
edges.  The vehicle-position query applied to the string `"highway"` — an
edge name, not a live vehicle id — answers with the kernel's unknown-id
error value `-1001`. -/
def sC3 : EnvState :=
  { s0 with
    rl_ids := ["A"]
    get_speed := fun v => if v = "A" then 10 else if v = "B" then 20 else 0
    get_position := fun v => if v = "A" then 50 else if v = "B" then 30 else -1001
    get_ids_by_edge := fun e => if e = "highway" then ["A", "B"] else [] }

/-- A single agent `A` with otherwise neutral telemetry. -/
def sC4 : EnvState := { s0 with rl_ids := ["A"] }

/-! ### C3 -/

/-- C3: at the failing input `sC3` the local-reward variant pays agent `A`
exactly 0, although the mean speed of the same-lane vehicles at or behind
`A`'s position (`A` itself and `B`) normalized by the speed limit of `A`'s
edge is `1/2 ≠ 0`.  The source computes its reference position as
`get_position(edge)` — the position query applied to the edge name — rather
than the agent's own position, so no same-edge vehicle ever passes the
`veh_pos <= pos` test here. -/
theorem C3_local_reward_uses_edge_position :
    MultiAgentHighwayPOEnvLocalReward.compute_reward sC3 10 (some []) false =
      [("A", 0)]
    ∧ ((sC3.get_speed "A" + sC3.get_speed "B") / 2) /
        sC3.speed_limit (sC3.get_edge "A") = 1/2
    ∧ ¬((1/2 : ℚ) = 0) := by
  refine ⟨?_, ?_, by norm_num⟩
  · simp only [MultiAgentHighwayPOEnvLocalReward.compute_reward,
      MultiAgentHighwayPOEnvLocalReward.compute_avgspeednormalized_agent,
      MultiAgentHighwayPOEnvLocalReward.compute_avgspeed_agent,
      MultiAgentHighwayPOEnvLocalReward.veh_edge_lane_backward_pass, sC3, s0]
    simp
    norm_num
  · simp only [sC3, s0]
    simp
    norm_num

/-! ### C4 -/

/-- C4: with the failure flag set and evaluation mode off, the base variant
pays every agent exactly 0; the negative-constant variant pays exactly −0.1
for every agent whatever the flag; and the collaborative variant returns
identical rewards for both values of the flag. -/
theorem C4_failure_flag_semantics :
    (∀ (s : EnvState) (acts : List (String × ActionVec)),
      s.evaluate = false →
      MultiAgentHighwayPOEnv.compute_reward s (some acts) true =
        s.rl_ids.map (fun rl_id => (rl_id, (0 : ℚ))))
    ∧ (∀ (s : EnvState) (acts : List (String × ActionVec)) (fail : Bool),
        MultiAgentHighwayPOEnvNegative.compute_reward s (some acts) fail =
          s.rl_ids.map (fun rl_id => (rl_id, (-0.1 : ℚ))))
    ∧ (∀ (s : EnvState) (acts : List (String × ActionVec)),
        MultiAgentHighwayPOEnvCollaborate.compute_reward s (some acts) true =
          MultiAgentHighwayPOEnvCollaborate.compute_reward s (some acts) false) := by
  refine ⟨?_, fun s acts fail => rfl, fun s acts => rfl⟩
  intro s acts h
  simp [MultiAgentHighwayPOEnv.compute_reward, MultiAgentHighwayPOEnv.reward_agent, h]

/-- Witness for C4 at the single-agent fixture. -/
theorem C4_failure_flag_semantics_witness :
    MultiAgentHighwayPOEnv.compute_reward sC4 (some []) true =
      sC4.rl_ids.map (fun rl_id => (rl_id, (0 : ℚ))) :=
  C4_failure_flag_semantics.1 sC4 [] rfl

/-! ### C6 -/

/-- C6: in the base variant, with evaluation mode off and the failure flag
false, every reward entry is nonnegative, thanks to the
`max(eta1*cost1 + eta2*cost2, 0)` floor. -/
theorem C6_base_reward_nonneg (s : EnvState) (acts : List (String × ActionVec))
    (p : String × ℚ) (h : s.evaluate = false)
    (hp : p ∈ MultiAgentHighwayPOEnv.compute_reward s (some acts) false) :
    0 ≤ p.2 := by
  rcases List.mem_map.mp hp with ⟨rl_id, _, rfl⟩
  simp only [MultiAgentHighwayPOEnv.reward_agent, h]
  simp only [Bool.false_eq_true, if_false]
  exact le_max_right _ _

/-- Witness for C6 at the single-agent fixture. -/
theorem C6_base_reward_nonneg_witness :
    (0 : ℚ) ≤ ("A", MultiAgentHighwayPOEnv.reward_agent sC4 false "A").2 :=
  C6_base_reward_nonneg sC4 [] _ rfl
    (by simp [MultiAgentHighwayPOEnv.compute_reward, sC4, s0])

/-! ### C7 -/

/-- C7: in every variant, `compute_reward` called with `None` actions returns
the empty mapping, and `get_state` with an empty RL-id set returns the empty
mapping; all embedded functions are total, so neither call raises. -/
theorem C7_none_and_empty :
    (∀ (s : EnvState) (fail : Bool),
      MultiAgentHighwayPOEnv.compute_reward s none fail = [])
    ∧ (∀ (s : EnvState) (fuel : Nat) (fail : Bool),
        MultiAgentHighwayPOEnvLocalReward.compute_reward s fuel none fail = [])
    ∧ (∀ (s : EnvState) (fail : Bool),
        MultiAgentHighwayPOEnvNegative.compute_reward s none fail = [])
    ∧ (∀ (s : EnvState) (fail : Bool),
        MultiAgentHighwayPOEnvCollaborate.compute_reward s none fail = [])
    ∧ (∀ (s : EnvState) (fail : Bool),
        MultiAgentHighwayPOEnvDistanceMergeInfoNegative.compute_reward s none fail = [])
    ∧ (∀ (s : EnvState) (fail : Bool),
        MultiAgentHighwayPOEnvDistanceMergeInfoCollaborate.compute_reward s none fail = [])
    ∧ (∀ s : EnvState, s.rl_ids = [] →
        MultiAgentHighwayPOEnv.get_state s = []
        ∧ MultiAgentHighwayPOEnvDistanceMergeInfo.get_state s = []) := by
  refine ⟨fun s fail => rfl, fun s fuel fail => rfl, fun s fail => rfl,
    fun s fail => rfl, fun s fail => rfl, fun s fail => rfl, fun s h => ⟨?_, ?_⟩⟩
  · simp [MultiAgentHighwayPOEnv.get_state, h]
  · simp [MultiAgentHighwayPOEnvDistanceMergeInfo.get_state, h]

/-- Witness for C7 at the empty fixture `s0`. -/
theorem C7_none_and_empty_witness :
    MultiAgentHighwayPOEnv.get_state s0 = []
    ∧ MultiAgentHighwayPOEnvDistanceMergeInfo.get_state s0 = [] :=
  C7_none_and_empty.2.2.2.2.2.2 s0 rfl

/-- Agent `A` driving at twice the network max speed, no neighbors. -/
def sC5 : EnvState :=
  { s0 with
    rl_ids := ["A"]
    get_speed := fun v => if v = "A" then 60 else 0 }

/-- Agent `A` with all telemetry inside the nominal ranges. -/
def sC5w : EnvState :=
  { s0 with
    rl_ids := ["A"]
    get_speed := fun _ => 10
    get_headway := fun _ => 5 }

/-! ### C5 -/

/-- C5 counterexample: in the 7-feature variant only the two merge-aware
features are clipped; with an agent at speed 60 on a network whose max speed
is 30 (`sC5`), the first component of the observation is `2 ∉ [-1, 1]`. -/
theorem C5_extended_obs_counterexample :
    MultiAgentHighwayPOEnvDistanceMergeInfo.get_state sC5 =
      [("A", [2, -1, 1, 2, 1, 1, 1])]
    ∧ ¬((2 : ℚ) ≤ 1) := by
  constructor
  · simp only [MultiAgentHighwayPOEnvDistanceMergeInfo.get_state,
      MultiAgentHighwayPOEnvDistanceMergeInfo.observe,
      MultiAgentHighwayPOEnvDistanceMergeInfo.merge_distance,
      MultiAgentHighwayPOEnvDistanceMergeInfo.distance_feature,
      lead_pair, follow_pair, sC5, s0]
    simp
    norm_num [np_clip, max_def, min_def]
  · norm_num

/-- Division bounds: `0 ≤ a ≤ m` with `0 < m` puts `a/m` in `[-1, 1]`. -/
lemma div_bounds_of_le {m a : ℚ} (hm : 0 < m) (h0 : 0 ≤ a) (h1 : a ≤ m) :
    -1 ≤ a / m ∧ a / m ≤ 1 :=
  ⟨le_trans (by norm_num) (div_nonneg h0 hm.le), (div_le_one hm).mpr h1⟩

/-- Difference bounds: `a, b ∈ [0, m]` with `0 < m` puts `(a - b)/m` in
`[-1, 1]`. -/
lemma sub_div_bounds {m a b : ℚ} (hm : 0 < m) (ha0 : 0 ≤ a) (ha1 : a ≤ m)
    (hb0 : 0 ≤ b) (hb1 : b ≤ m) : -1 ≤ (a - b) / m ∧ (a - b) / m ≤ 1 := by
  constructor
  · rw [le_div_iff₀ hm]; linarith
  · rw [div_le_one hm]; linarith

/-- Applying `np.clip(x, -1, 1)` always lands in `[-1, 1]`. -/
lemma np_clip_bounds (x : ℚ) : -1 ≤ np_clip x (-1) 1 ∧ np_clip x (-1) 1 ≤ 1 :=
  ⟨le_min (le_max_right x (-1)) (by norm_num), min_le_right _ _⟩

/-- Both components of `lead_pair` are within the nominal telemetry ranges
when all speeds and headways are. -/
lemma lead_pair_bounds (s : EnvState) (rl_id : String)
    (hms : 0 < s.max_speed) (hml : 0 < s.length)
    (hsp : ∀ v, 0 ≤ s.get_speed v ∧ s.get_speed v ≤ s.max_speed)
    (hhw : ∀ v, 0 ≤ s.get_headway v ∧ s.get_headway v ≤ s.length) :
    (0 ≤ (lead_pair s rl_id).1 ∧ (lead_pair s rl_id).1 ≤ s.max_speed)
    ∧ (0 ≤ (lead_pair s rl_id).2 ∧ (lead_pair s rl_id).2 ≤ s.length) := by
  rcases h : s.get_leader rl_id with _ | l
  · simp [lead_pair, h, hms.le, hml.le]
  · by_cases hl : l = ""
    · simp [lead_pair, h, hl, hms.le, hml.le]
    · simpa [lead_pair, h, hl] using ⟨hsp l, hhw rl_id⟩

/-- Both components of `follow_pair` are within the nominal telemetry ranges
when all speeds and headways are. -/
lemma follow_pair_bounds (s : EnvState) (rl_id : String)
    (hms : 0 < s.max_speed) (hml : 0 < s.length)
    (hsp : ∀ v, 0 ≤ s.get_speed v ∧ s.get_speed v ≤ s.max_speed)
    (hhw : ∀ v, 0 ≤ s.get_headway v ∧ s.get_headway v ≤ s.length) :
    (0 ≤ (follow_pair s rl_id).1 ∧ (follow_pair s rl_id).1 ≤ s.max_speed)
    ∧ (0 ≤ (follow_pair s rl_id).2 ∧ (follow_pair s rl_id).2 ≤ s.length) := by
  rcases h : s.get_follower rl_id with _ | f
  · simp [follow_pair, h, hms.le, hml.le]
  · by_cases hf : f = ""
    · simp [follow_pair, h, hf, hms.le, hml.le]
    · simpa [follow_pair, h, hf] using ⟨hsp f, hhw f⟩

/-- Every component of a 7-feature observation is in `[-1, 1]` when all
speeds lie in `[0, max_speed]` and all headways in `[0, length]`. -/
lemma observe7_bounds (s : EnvState) (md : ℚ) (rl_id : String)
    (hms : 0 < s.max_speed) (hml : 0 < s.length)
    (hsp : ∀ v, 0 ≤ s.get_speed v ∧ s.get_speed v ≤ s.max_speed)
    (hhw : ∀ v, 0 ≤ s.get_headway v ∧ s.get_headway v ≤ s.length)
    (x : ℚ) (hx : x ∈ MultiAgentHighwayPOEnvDistanceMergeInfo.observe s md rl_id) :
    -1 ≤ x ∧ x ≤ 1 := by
  have hv := hsp rl_id
  have hL := lead_pair_bounds s rl_id hms hml hsp hhw
  have hF := follow_pair_bounds s rl_id hms hml hsp hhw
  simp only [MultiAgentHighwayPOEnvDistanceMergeInfo.observe, List.mem_cons,
    List.not_mem_nil, or_false] at hx
  rcases hx with rfl | rfl | rfl | rfl | rfl | rfl | rfl
  · exact div_bounds_of_le hms hv.1 hv.2
  · exact sub_div_bounds hms hL.1.1 hL.1.2 hv.1 hv.2
  · exact div_bounds_of_le hml hL.2.1 hL.2.2
  · exact sub_div_bounds hms hv.1 hv.2 hF.1.1 hF.1.2
  · exact div_bounds_of_le hml hF.2.1 hF.2.2
  · exact np_clip_bounds _
  · exact np_clip_bounds _

/-- C5 (amended): the two merge-aware features are clipped to `[-1, 1]`, and
the full 7-feature observation lies in `[-1, 1]` componentwise whenever every
queried speed lies in `[0, max_speed]` and every headway in `[0, length]`
(positive normalizers); the first five features are not clipped by the code
and leave `[-1, 1]` for out-of-range telemetry. -/
theorem C5_extended_obs_bounds_amended (s : EnvState)
    (hms : 0 < s.max_speed) (hml : 0 < s.length)
    (hsp : ∀ v, 0 ≤ s.get_speed v ∧ s.get_speed v ≤ s.max_speed)
    (hhw : ∀ v, 0 ≤ s.get_headway v ∧ s.get_headway v ≤ s.length)
    (p : String × List ℚ) (x : ℚ)
    (hp : p ∈ MultiAgentHighwayPOEnvDistanceMergeInfo.get_state s)
    (hx : x ∈ p.2) :
    -1 ≤ x ∧ x ≤ 1 := by
  rcases List.mem_map.mp hp with ⟨rl_id, _, rfl⟩
  exact observe7_bounds s _ rl_id hms hml hsp hhw x hx

/-- Witness for the amended C5 at the in-range fixture `sC5w`. -/
theorem C5_extended_obs_bounds_amended_witness :
    -1 ≤ sC5w.get_speed "A" / sC5w.max_speed
    ∧ sC5w.get_speed "A" / sC5w.max_speed ≤ 1 :=
  C5_extended_obs_bounds_amended sC5w (by norm_num [sC5w, s0])
    (by norm_num [sC5w, s0])
    (fun v => by constructor <;> norm_num [sC5w, s0])
    (fun v => by constructor <;> norm_num [sC5w, s0])
    ("A", MultiAgentHighwayPOEnvDistanceMergeInfo.observe sC5w
      (MultiAgentHighwayPOEnvDistanceMergeInfo.merge_distance sC5w) "A")
    (sC5w.get_speed "A" / sC5w.max_speed)
    (List.mem_map.mpr ⟨"A", by simp [sC5w, s0], rfl⟩)
    (by simp [MultiAgentHighwayPOEnvDistanceMergeInfo.observe])

/-! ### C8 -/

/-- C8: in every variant, the mapping returned by `get_state` and the mapping
returned by `compute_reward` on non-`None` actions are keyed by exactly the
ids of that step's `get_rl_ids` query, in order. -/
theorem C8_keys_are_rl_ids (s : EnvState) (acts : List (String × ActionVec))
    (fail : Bool) (fuel : Nat) :
    (MultiAgentHighwayPOEnv.get_state s).map Prod.fst = s.rl_ids
    ∧ (MultiAgentHighwayPOEnvDistanceMergeInfo.get_state s).map Prod.fst = s.rl_ids
    ∧ (MultiAgentHighwayPOEnv.compute_reward s (some acts) fail).map Prod.fst = s.rl_ids
    ∧ (MultiAgentHighwayPOEnvLocalReward.compute_reward s fuel (some acts) fail).map
        Prod.fst = s.rl_ids
    ∧ (MultiAgentHighwayPOEnvNegative.compute_reward s (some acts) fail).map
        Prod.fst = s.rl_ids
    ∧ (MultiAgentHighwayPOEnvCollaborate.compute_reward s (some acts) fail).map
        Prod.fst = s.rl_ids
    ∧ (MultiAgentHighwayPOEnvDistanceMergeInfoNegative.compute_reward s (some acts)
        fail).map Prod.fst = s.rl_ids
    ∧ (MultiAgentHighwayPOEnvDistanceMergeInfoCollaborate.compute_reward s (some acts)
        fail).map Prod.fst = s.rl_ids := by
  refine ⟨?_, ?_, ?_, ?_, ?_, ?_, ?_, ?_⟩ <;>
    simp [MultiAgentHighwayPOEnv.get_state,
      MultiAgentHighwayPOEnvDistanceMergeInfo.get_state,
      MultiAgentHighwayPOEnv.compute_reward,
      MultiAgentHighwayPOEnvLocalReward.compute_reward,
      MultiAgentHighwayPOEnvNegative.compute_reward,
      MultiAgentHighwayPOEnvCollaborate.compute_reward,
      MultiAgentHighwayPOEnvDistanceMergeInfoNegative.compute_reward,
      MultiAgentHighwayPOEnvDistanceMergeInfoCollaborate.compute_reward,
      List.map_map, Function.comp_def]

/-! ### C9 -/

/-- The constructor's check succeeds exactly when all three required keys are
among the supplied additional parameters. -/
lemma init_check_ok_iff (params : List String) :
    init_check params = Except.ok () ↔
      ("max_accel" ∈ params ∧ "max_decel" ∈ params ∧ "target_velocity" ∈ params) := by
  by_cases h1 : "max_accel" ∈ params <;>
    by_cases h2 : "max_decel" ∈ params <;>
      by_cases h3 : "target_velocity" ∈ params <;>
        simp [init_check, check_params, ADDITIONAL_ENV_PARAMS_keys, h1, h2, h3]

/-- C9: the constructor's parameter check raises a `KeyError` when any of
`max_accel`, `max_decel`, `target_velocity` is absent (so no environment
object is produced), and raises nothing when all three are present. -/
theorem C9_required_config_keys :
    (∀ params : List String,
      init_check params = Except.ok () ↔
        ("max_accel" ∈ params ∧ "max_decel" ∈ params ∧ "target_velocity" ∈ params))
    ∧ (∀ params : List String,
        ("max_accel" ∉ params ∨ "max_decel" ∉ params ∨ "target_velocity" ∉ params) →
        ∃ msg, init_check params = Except.error msg) := by
  refine ⟨init_check_ok_iff, fun params h => ?_⟩
  cases hc : init_check params with
  | ok u =>
    cases u
    rcases (init_check_ok_iff params).mp hc with ⟨h1, h2, h3⟩
    rcases h with h' | h' | h' <;> exact absurd (by assumption) h'
  | error msg => exact ⟨msg, rfl⟩

/-- Witness for C9: the full key set passes; dropping `target_velocity`
yields an error. -/
theorem C9_required_config_keys_witness :
    init_check ["max_accel", "max_decel", "target_velocity"] = Except.ok ()
    ∧ ∃ msg, init_check ["max_accel", "max_decel"] = Except.error msg :=
  ⟨(C9_required_config_keys.1 _).mpr (by simp),
    C9_required_config_keys.2 _ (by simp)⟩

/-! ### C10 -/

/-- C10: dispatching an empty (but non-`None`) action mapping issues no
acceleration command, exactly like the `None` warm-up case, because the
dispatcher tests Python truthiness rather than comparing to `None`. -/
theorem C10_empty_actions_noop :
    MultiAgentHighwayPOEnv.apply_rl_actions (some []) =
      MultiAgentHighwayPOEnv.apply_rl_actions none
    ∧ MultiAgentHighwayPOEnv.apply_rl_actions none = [] :=
  ⟨rfl, rfl⟩

/-- Witness for the amended C2 at the `sC2` fixture. -/
theorem C2_no_leader_amended_witness :
    ("A", MultiAgentHighwayPOEnv.observe sC2 "A") ∈
      MultiAgentHighwayPOEnv.get_state sC2
    ∧ (MultiAgentHighwayPOEnv.observe sC2 "A").get? 1 =
        some ((sC2.max_speed - sC2.get_speed "A") / sC2.max_speed)
    ∧ (MultiAgentHighwayPOEnv.observe sC2 "A").get? 2 = some 1 :=
  C2_no_leader_amended sC2 "A" (by decide) (Or.inl rfl) (by decide)
